import Mathlib

/-!
Shallow embedding of the UCSC-Animals sighting service.

The repository is a set of near-duplicate Express + MongoDB servers.  The
variant with a distinct creation timestamp and activity timestamp is the
first file of `src/unnamed/part_002`: its `GET /api/sightings` handler
filters on `lastUpdate >= now - 3600000` and sorts by `timestamp`
descending, its `POST /api/sightings/:id/refresh` handler sets
`lastUpdate` to the current time, and its `cleanupExpiredSightings` sweep
deletes documents with `lastUpdate < now - 3600000`.  The create pipeline
with image upload, the truthiness presence check and the Mongoose schema
validation is `src/server.js` (`POST /api/sightings`, lines 122-154, with
`sightingSchema`, lines 47-84).

Times are JavaScript `Date` values, i.e. integer milliseconds.
Coordinates are JSON numbers, modelled as rationals.  JavaScript
truthiness is modelled explicitly: an absent or empty string is falsy, an
absent or zero number is falsy.
-/

namespace UCSCAnimals

/-- Millisecond wall-clock timestamps, as JavaScript `Date` values. -/
abbrev Time := Int

/-- The closed animal enumeration of the Mongoose `sightingSchema`. -/
def animalEnum : List String := ["deer", "turkey", "cow", "sheep", "goat", "coyote"]

/-- A stored sighting document.  `timestamp` is the creation time
(the spec's `createdAt`), `lastUpdate` the activity time (the spec's
`lastActiveAt`); `id` models the Mongo `_id`. -/
structure Sighting where
  id : Nat
  animal : String
  isBaby : Bool
  lat : ℚ
  lng : ℚ
  imageUrl : String
  timestamp : Time
  lastUpdate : Time
deriving DecidableEq

/-- The sighting collection. -/
abbrev Store := List Sighting

/-- One hour in milliseconds (`3600000` in the handlers). -/
def hourMs : Int := 3600000

/-- The `GET /api/sightings` filter of `src/unnamed/part_002`:
`lastUpdate: { $gte: new Date(Date.now() - 3600000) }`. -/
def isActive (now : Time) (s : Sighting) : Bool :=
  decide (now - hourMs ≤ s.lastUpdate)

/-- The `cleanupExpiredSightings` filter of `src/unnamed/part_002`:
`lastUpdate: { $lt: new Date(Date.now() - 3600000) }`. -/
def isExpired (now : Time) (s : Sighting) : Bool :=
  decide (s.lastUpdate < now - hourMs)

/-- `.sort({ timestamp: -1 })`: newest creation time first. -/
def newerCreated (a b : Sighting) : Prop := b.timestamp ≤ a.timestamp

instance : DecidableRel newerCreated := fun a b => Int.decLe b.timestamp a.timestamp

instance : IsTotal Sighting newerCreated :=
  ⟨fun a b => (le_total b.timestamp a.timestamp)⟩

instance : IsTrans Sighting newerCreated :=
  ⟨fun _ _ _ hab hbc => le_trans hbc hab⟩

/-- The `GET /api/sightings` handler of `src/unnamed/part_002` (lines
85-96): `Sighting.find({ lastUpdate: { $gte: hourAgo } }).sort({ timestamp: -1 })`. -/
def listActive (now : Time) (store : Store) : List Sighting :=
  List.insertionSort newerCreated (store.filter (isActive now))

/-- Outcome of `POST /api/sightings/:id/refresh`. -/
inductive RefreshResult where
  | ok (s : Sighting)
  | notFound
deriving DecidableEq

/-- The `POST /api/sightings/:id/refresh` handler of `src/unnamed/part_002`
(lines 135-148): `findById`, 404 when absent, otherwise
`sighting.lastUpdate = new Date(); sighting.save()`. -/
def refreshSighting (now : Time) (i : Nat) (store : Store) : RefreshResult × Store :=
  match store.find? (fun s => s.id == i) with
  | none => (RefreshResult.notFound, store)
  | some s =>
      (RefreshResult.ok { s with lastUpdate := now },
       store.map (fun t => if t.id == i then { t with lastUpdate := now } else t))

/-- The document deletion of `cleanupExpiredSightings` in
`src/unnamed/part_002` (lines 151-175):
`Sighting.deleteMany({ lastUpdate: { $lt: hourAgo } })`. -/
def cleanupExpiredSightings (now : Time) (store : Store) : Store :=
  store.filter (fun s => ! isExpired now s)

/-- Modelled from the spec: `deleteExpired() -> count`.  The repository's
`cleanupExpiredSightings` (`src/unnamed/part_002`, lines 151-175) deletes
with exactly this filter via `deleteMany` but discards the `deletedCount`
that `deleteMany` reports; this definition surfaces that count, the
number of documents matching the deletion filter. -/
def deleteExpired (now : Time) (store : Store) : Store × Nat :=
  (cleanupExpiredSightings now store, (store.filter (isExpired now)).length)

/-- The parsed `location` object of a create request body; `lat`/`lng`
are `none` when the property is absent. -/
structure LocationBody where
  lat : Option ℚ
  lng : Option ℚ
deriving DecidableEq

/-- A `POST /api/sightings` request as `src/server.js` sees it:
`req.file` (the multer upload, `none` when no image was attached) and the
fields of `JSON.parse(req.body.sighting)`. -/
structure CreateRequest where
  filePath : Option String
  animal : Option String
  isBaby : Option Bool
  location : Option LocationBody
deriving DecidableEq

/-- Outcome of `POST /api/sightings` in `src/server.js`. -/
inductive CreateResult where
  | created (s : Sighting)
  | imageRequired
  | missingFields
  | validationError
deriving DecidableEq

/-- Membership in the schema's `enum` for `animal`. -/
def validAnimal (a : String) : Bool := animalEnum.contains a

/-- The Mongoose `sightingSchema` validation of `src/server.js` (lines
47-84): `animal` in the enumeration, `lat` in `[-90, 90]`, `lng` in
`[-180, 180]`, and the `required` string `imageUrl` nonempty. -/
def validateSighting (s : Sighting) : Bool :=
  validAnimal s.animal && decide (-90 ≤ s.lat) && decide (s.lat ≤ 90) &&
    decide (-180 ≤ s.lng) && decide (s.lng ≤ 180) && decide (s.imageUrl ≠ "")

/-- The document `new Sighting({...})` builds in the `POST /api/sightings`
handler of `src/server.js`: `isBaby: isBaby || false`,
`imageUrl: req.file.path`, and the schema defaults `timestamp` and
`lastUpdate` to the current time. -/
def buildSighting (now : Time) (newId : Nat) (req : CreateRequest) (a : String)
    (la ln : ℚ) (path : String) : Sighting :=
  { id := newId, animal := a, isBaby := req.isBaby.getD false,
    lat := la, lng := ln, imageUrl := path,
    timestamp := now, lastUpdate := now }

/-- The `POST /api/sightings` handler of `src/server.js` (lines 122-154):
400 when `req.file` is absent; then the truthiness presence check
`!animal || !location || !location.lat || !location.lng` (an empty
string and the number 0 are falsy) answers 400 `Missing required fields`;
otherwise the document is built and saved, a schema violation surfacing
as the 400 `ValidationError` branch. -/
def postSighting (now : Time) (newId : Nat) (req : CreateRequest) (store : Store) :
    CreateResult × Store :=
  match req.filePath with
  | none => (CreateResult.imageRequired, store)
  | some path =>
    match req.animal, req.location with
    | some a, some loc =>
      match loc.lat, loc.lng with
      | some la, some ln =>
        if a = "" ∨ la = 0 ∨ ln = 0 then (CreateResult.missingFields, store)
        else
          if validateSighting (buildSighting now newId req a la ln path) then
            (CreateResult.created (buildSighting now newId req a la ln path),
             store ++ [buildSighting now newId req a la ln path])
          else (CreateResult.validationError, store)
      | _, _ => (CreateResult.missingFields, store)
    | _, _ => (CreateResult.missingFields, store)

/-- The store invariant of the spec: `lastActiveAt >= createdAt`. -/
def StoreInv (store : Store) : Prop :=
  ∀ s ∈ store, s.timestamp ≤ s.lastUpdate

/-- A record created one hour before clock value `3600000`. -/
def s0 : Sighting :=
  { id := 0, animal := "deer", isBaby := false, lat := 10, lng := 20,
    imageUrl := "img", timestamp := 0, lastUpdate := 0 }

/-- A record last refreshed at time 5. -/
def r5 : Sighting :=
  { id := 0, animal := "deer", isBaby := false, lat := 1, lng := 2,
    imageUrl := "img", timestamp := 0, lastUpdate := 5 }

/-- `r5` after a refresh at time 10. -/
def r5r : Sighting := { r5 with lastUpdate := 10 }

/-- A fully valid create request: a deer at (36, -122) with image. -/
def reqGood : CreateRequest :=
  { filePath := some "img", animal := some "deer", isBaby := some false,
    location := some { lat := some 36, lng := some (-122) } }

/-- The record `postSighting 0 7 reqGood` stores. -/
def goodSighting : Sighting :=
  { id := 7, animal := "deer", isBaby := false, lat := 36,
    lng := -122, imageUrl := "img", timestamp := 0, lastUpdate := 0 }

/-- A request whose latitude 100 is out of range. -/
def reqBadLat : CreateRequest :=
  { filePath := some "img", animal := some "deer", isBaby := none,
    location := some { lat := some 100, lng := some 20 } }

/-- A request whose animal tag is the empty string. -/
def reqEmptyAnimal : CreateRequest :=
  { filePath := some "img", animal := some "", isBaby := some true,
    location := some { lat := some 10, lng := some 20 } }

/-- A valid request with no image attached. -/
def reqNoFile : CreateRequest :=
  { filePath := none, animal := some "deer", isBaby := some false,
    location := some { lat := some 10, lng := some 20 } }

/-- A request at latitude exactly 0 (on the equator), otherwise valid. -/
def reqZeroLat : CreateRequest :=
  { filePath := some "img", animal := some "deer", isBaby := none,
    location := some { lat := some 0, lng := some (-122) } }

/-- C1 (counterexample): at clock value 3600000 the record `s0`, whose
`lastUpdate` is exactly one hour old, is returned by the listing even
though `now - lastUpdate < one hour` fails: the `$gte` filter is
inclusive at the boundary, so the claimed strict window is wrong. -/
theorem listActive_boundary_not_strict :
    s0 ∈ listActive 3600000 [s0] ∧ ¬(3600000 - s0.lastUpdate < hourMs) := by
  decide

/-- C1 (amended): every record returned by the `GET /api/sightings`
handler has `now - lastUpdate ≤ one hour` (the filter
`lastUpdate >= now - 3600000` is inclusive at the boundary), and the
returned sequence is ordered newest `timestamp` (creation time) first;
this variant applies no cap, which the optional cap permits. -/
theorem listActive_within_window_sorted (now : Time) (store : Store) :
    (∀ s ∈ listActive now store, now - s.lastUpdate ≤ hourMs) ∧
    List.Sorted newerCreated (listActive now store) := by
  refine ⟨fun s hs => ?_, List.sorted_insertionSort newerCreated _⟩
  have hmem : s ∈ store.filter (isActive now) :=
    (List.perm_insertionSort newerCreated (store.filter (isActive now))).mem_iff.mp hs
  have hact := (List.mem_filter.mp hmem).2
  simp only [isActive, hourMs, decide_eq_true_eq] at hact
  simp only [hourMs]
  linarith

/-- C1 (witness): the boundary record returned at clock 3600000 indeed
satisfies the inclusive window bound. -/
theorem listActive_within_window_sorted_witness :
    3600000 - s0.lastUpdate ≤ hourMs :=
  (listActive_within_window_sorted 3600000 [s0]).1 s0 (by decide)

/-- C2 (counterexample): refreshing `r5` (whose `lastUpdate` is 5) at
clock value 5 — two operations within the same millisecond — succeeds
and returns the record unchanged: `lastUpdate` is set to `now`, which is
not strictly greater than its previous value. -/
theorem refresh_same_instant_not_strict :
    (refreshSighting 5 0 [r5]).1 = RefreshResult.ok r5 ∧
    (refreshSighting 5 0 [r5]).2 = [r5] ∧
    ¬ r5.lastUpdate < r5.lastUpdate := by
  decide

/-- C2 (amended): a successful refresh returns the found record with
`lastUpdate` set to the call time and every other field — `id`,
`animal`, `isBaby`, `lat`, `lng`, `imageUrl` and the creation time
`timestamp` — unchanged; `lastUpdate` strictly increases whenever the
call time is strictly later than the record's previous `lastUpdate`;
and records with a different id are left in the store unchanged. -/
theorem refresh_frame_strict (now : Time) (i : Nat) (store : Store) (s s' : Sighting)
    (hfind : store.find? (fun t => t.id == i) = some s)
    (hok : (refreshSighting now i store).1 = RefreshResult.ok s') :
    s'.id = s.id ∧ s'.animal = s.animal ∧ s'.isBaby = s.isBaby ∧ s'.lat = s.lat ∧
    s'.lng = s.lng ∧ s'.imageUrl = s.imageUrl ∧ s'.timestamp = s.timestamp ∧
    s'.lastUpdate = now ∧ (s.lastUpdate < now → s.lastUpdate < s'.lastUpdate) ∧
    ∀ t ∈ store, t.id ≠ i → t ∈ (refreshSighting now i store).2 := by
  unfold refreshSighting at hok ⊢
  rw [hfind] at hok ⊢
  simp only [RefreshResult.ok.injEq] at hok
  subst hok
  refine ⟨rfl, rfl, rfl, rfl, rfl, rfl, rfl, rfl, fun h => h, ?_⟩
  intro t ht hne
  refine List.mem_map.mpr ⟨t, ht, ?_⟩
  simp [hne]

/-- C2 (witness): refreshing `r5` at clock 10 keeps the creation time,
sets `lastUpdate` to 10 and strictly increases it. -/
theorem refresh_frame_strict_witness :
    r5r.timestamp = r5.timestamp ∧ r5r.lastUpdate = 10 ∧ r5.lastUpdate < r5r.lastUpdate := by
  have h := refresh_frame_strict 10 0 [r5] r5 r5r (by decide) (by decide)
  exact ⟨h.2.2.2.2.2.2.1, h.2.2.2.2.2.2.2.1, h.2.2.2.2.2.2.2.2.1 (by decide)⟩

/-- C3 (counterexample): the empty string is outside the animal
enumeration, yet a create request carrying it (with image and in-range
coordinates) is answered by the truthiness presence check with 400
`Missing required fields`, not by the Mongoose `ValidationError` branch;
nothing is persisted either way. -/
theorem create_empty_animal_not_validationError :
    validAnimal "" = false ∧
    postSighting 0 7 reqEmptyAnimal [] = (CreateResult.missingFields, []) ∧
    (postSighting 0 7 reqEmptyAnimal []).1 ≠ CreateResult.validationError := by
  decide

/-- C3 (amended): for a create request that passes the presence check
(image attached with nonempty path, nonempty animal tag, nonzero
coordinates): if the animal is outside the enumeration or a coordinate
is out of range, the request fails in the `ValidationError` branch (HTTP
400) with the store unchanged; conversely, if the animal is in the
enumeration and both coordinates are in range, the `ValidationError`
branch is not taken.  (Requests failing the presence check are rejected
with 400 `Image is required` or `Missing required fields` instead, also
without persisting.) -/
theorem create_validationError_iff (now : Time) (nid : Nat) (req : CreateRequest)
    (store : Store) (path a : String) (loc : LocationBody) (la ln : ℚ)
    (hf : req.filePath = some path) (hpath : path ≠ "")
    (ha : req.animal = some a) (hloc : req.location = some loc)
    (hla : loc.lat = some la) (hln : loc.lng = some ln)
    (ha0 : a ≠ "") (hla0 : la ≠ 0) (hln0 : ln ≠ 0) :
    ((validAnimal a = false ∨ la < -90 ∨ 90 < la ∨ ln < -180 ∨ 180 < ln) →
        postSighting now nid req store = (CreateResult.validationError, store)) ∧
    ((validAnimal a = true ∧ -90 ≤ la ∧ la ≤ 90 ∧ -180 ≤ ln ∧ ln ≤ 180) →
        (postSighting now nid req store).1 ≠ CreateResult.validationError) := by
  have hcond : ¬(a = "" ∨ la = 0 ∨ ln = 0) := by
    push_neg
    exact ⟨ha0, hla0, hln0⟩
  obtain ⟨rf, ra, rb, rl⟩ := req
  obtain ⟨llat, llng⟩ := loc
  simp only at hf ha hloc hla hln
  subst hf ha hloc hla hln
  unfold postSighting
  dsimp only
  rw [if_neg hcond]
  constructor
  · intro hbad
    split
    next hvt =>
      exfalso
      simp only [validateSighting, buildSighting, Bool.and_eq_true, decide_eq_true_eq] at hvt
      obtain ⟨⟨⟨⟨⟨hA, h1⟩, h2⟩, h3⟩, h4⟩, h5⟩ := hvt
      rcases hbad with hb | hb | hb | hb | hb
      · exact absurd hA (by simp [hb])
      · linarith
      · linarith
      · linarith
      · linarith
    next hvt => rfl
  · intro hgood
    split
    next hvt => simp
    next hvf =>
      exfalso
      apply hvf
      simp only [validateSighting, buildSighting, Bool.and_eq_true, decide_eq_true_eq]
      exact ⟨⟨⟨⟨⟨hgood.1, hgood.2.1⟩, hgood.2.2.1⟩, hgood.2.2.2.1⟩, hgood.2.2.2.2⟩, hpath⟩

/-- C3 (witness): a deer at out-of-range latitude 100 hits the
`ValidationError` branch; the fully valid request `reqGood` does not. -/
theorem create_validationError_iff_witness :
    postSighting 0 7 reqBadLat [] = (CreateResult.validationError, []) ∧
    (postSighting 0 7 reqGood []).1 ≠ CreateResult.validationError := by
  constructor
  · exact (create_validationError_iff 0 7 reqBadLat [] "img" "deer"
      { lat := some 100, lng := some 20 } 100 20 (by decide) (by decide) (by decide)
      (by decide) (by decide) (by decide) (by decide) (by decide) (by decide)).1
      (by decide)
  · exact (create_validationError_iff 0 7 reqGood [] "img" "deer"
      { lat := some 36, lng := some (-122) } 36 (-122)
      (by decide) (by decide) (by decide) (by decide) (by decide) (by decide)
      (by decide) (by decide) (by decide)).2 (by decide)

/-- The elements of a list split by a Boolean predicate account for its
whole length. -/
theorem length_filter_add_length_filter_not (p : Sighting → Bool) (l : List Sighting) :
    (l.filter p).length + (l.filter (fun s => ! p s)).length = l.length := by
  induction l with
  | nil => simp
  | cons a l ih =>
      by_cases h : p a <;> simp [List.filter_cons, h, ← ih] <;> omega

/-- C4: the sweep keeps exactly the records whose `lastUpdate` is not
older than one hour before the call time; the reported `deletedCount` is
the number of records removed; and a second sweep at the same call time,
with no intervening writes, reports 0. -/
theorem deleteExpired_exact_count_idempotent (now : Time) (store : Store) :
    (∀ s, s ∈ (deleteExpired now store).1 ↔
        s ∈ store ∧ ¬(s.lastUpdate < now - hourMs)) ∧
    (deleteExpired now store).2 =
        store.length - (deleteExpired now store).1.length ∧
    (deleteExpired now (deleteExpired now store).1).2 = 0 := by
  refine ⟨?_, ?_, ?_⟩
  · intro s
    simp [deleteExpired, cleanupExpiredSightings, List.mem_filter, isExpired]
  · have h := length_filter_add_length_filter_not (isExpired now) store
    simp only [deleteExpired, cleanupExpiredSightings]
    omega
  · simp only [deleteExpired, cleanupExpiredSightings, List.filter_filter]
    have : ∀ s : Sighting, (isExpired now s && ! isExpired now s) = false := by
      intro s
      cases isExpired now s <;> rfl
    simp [this]

/-- C5: whenever the create handler succeeds, the record it returns has
its creation time `timestamp` equal to its activity time `lastUpdate`,
both being the time of the call. -/
theorem create_sets_both_timestamps (now : Time) (nid : Nat) (req : CreateRequest)
    (store : Store) (s : Sighting) (store' : Store)
    (h : postSighting now nid req store = (CreateResult.created s, store')) :
    s.timestamp = now ∧ s.lastUpdate = now := by
  unfold postSighting at h
  repeat' split at h
  all_goals simp_all [buildSighting]
  obtain ⟨h1, h2⟩ := h
  subst h1
  exact ⟨rfl, rfl⟩

/-- C5 (witness): the record stored for the valid request `reqGood` at
clock 0 has both timestamps 0. -/
theorem create_sets_both_timestamps_witness :
    goodSighting.timestamp = 0 ∧ goodSighting.lastUpdate = 0 :=
  create_sets_both_timestamps 0 7 reqGood [] goodSighting [goodSighting] (by decide)

/-- C6: the invariant `lastUpdate ≥ timestamp` (the spec's
`lastActiveAt >= createdAt`) is preserved by every operation: by create
unconditionally (both timestamps are set to the call time), by refresh
whenever the clock has not gone backwards past any record's activity
time, by the expiry sweep, and it holds for every record the listing
returns. -/
theorem storeInv_preserved (now : Time) (nid i : Nat) (req : CreateRequest)
    (store : Store) (hinv : StoreInv store) :
    StoreInv (postSighting now nid req store).2 ∧
    ((∀ s ∈ store, s.lastUpdate ≤ now) → StoreInv (refreshSighting now i store).2) ∧
    StoreInv (deleteExpired now store).1 ∧
    ∀ s ∈ listActive now store, s.timestamp ≤ s.lastUpdate := by
  refine ⟨?_, ?_, ?_, ?_⟩
  · unfold postSighting
    repeat' split
    all_goals try exact hinv
    intro s hs
    rcases List.mem_append.mp hs with hmem | hmem
    · exact hinv s hmem
    · simp only [List.mem_singleton] at hmem
      subst hmem
      simp [buildSighting]
  · intro hclk
    unfold refreshSighting
    split
    · exact hinv
    · intro t ht
      obtain ⟨u, hu, rfl⟩ := List.mem_map.mp ht
      by_cases hid : (u.id == i) = true
      · simp only [hid, if_true]
        exact le_trans (hinv u hu) (hclk u hu)
      · simp only [hid, if_false]
        exact hinv u hu
  · intro s hs
    exact hinv s (List.mem_filter.mp hs).1
  · intro s hs
    have hmem : s ∈ store.filter (isActive now) :=
      (List.perm_insertionSort newerCreated (store.filter (isActive now))).mem_iff.mp hs
    exact hinv s (List.mem_filter.mp hmem).1

/-- C6 (witness): starting from the store `[r5]` (which satisfies the
invariant) at clock 10, the invariant holds after a create and after a
refresh. -/
theorem storeInv_preserved_witness :
    StoreInv (postSighting 10 7 reqGood [r5]).2 ∧
    StoreInv (refreshSighting 10 0 [r5]).2 := by
  have h := storeInv_preserved 10 7 0 reqGood [r5] (by unfold StoreInv; decide)
  exact ⟨h.1, h.2.1 (by decide)⟩

/-- C7: the refresh handler answers 404 exactly when no record with the
requested id is in the store at call time — including one that existed
earlier but was already swept — and on that failure the store is
unchanged. -/
theorem refresh_notFound_iff (now : Time) (i : Nat) (store : Store) :
    ((refreshSighting now i store).1 = RefreshResult.notFound ↔
        ∀ s ∈ store, s.id ≠ i) ∧
    ((refreshSighting now i store).1 = RefreshResult.notFound →
        (refreshSighting now i store).2 = store) := by
  unfold refreshSighting
  rcases hfind : store.find? (fun s => s.id == i) with _ | s
  all_goals simp only [hfind]
  · refine ⟨⟨fun _ s hs => ?_, fun _ => trivial⟩, fun _ => trivial⟩
    have := List.find?_eq_none.mp hfind s hs
    simpa using this
  · refine ⟨⟨fun h => ?_, fun hall => ?_⟩, fun h => ?_⟩
    · exact absurd h (by simp)
    · exfalso
      have hs := List.mem_of_find?_eq_some hfind
      have hp := List.find?_some hfind
      exact hall s hs (by simpa using hp)
    · exact absurd h (by simp)

/-- C7 (witness): refreshing the absent id 99 leaves the store `[r5]`
unchanged. -/
theorem refresh_notFound_iff_witness :
    (refreshSighting 0 99 [r5]).2 = [r5] :=
  (refresh_notFound_iff 0 99 [r5]).2 (by decide)

/-- C8 (counterexample): a create request that satisfies the animal and
coordinate constraints but attaches no image does not succeed: the
handler rejects it with 400 `Image is required` (the schema moreover
marks `imageUrl` as `required`), and nothing is persisted. -/
theorem create_no_image_fails :
    postSighting 0 7 reqNoFile [] = (CreateResult.imageRequired, []) := by
  decide

/-- C8 (amended): in the image-upload variant the image is mandatory:
every create request without an attached file is rejected with 400
`Image is required` and the store is unchanged. -/
theorem create_requires_image (now : Time) (nid : Nat) (req : CreateRequest)
    (store : Store) (h : req.filePath = none) :
    postSighting now nid req store = (CreateResult.imageRequired, store) := by
  unfold postSighting
  rw [h]

/-- C8 (witness): the concrete no-image request is rejected with the
store unchanged. -/
theorem create_requires_image_witness :
    postSighting 0 7 reqNoFile [] = (CreateResult.imageRequired, []) :=
  create_requires_image 0 7 reqNoFile [] (by decide)

/-- C9: a create request with an attached image whose coordinates are in
the valid ranges but with latitude 0 or longitude 0 is rejected with 400
`Missing required fields`, because the presence check
`!location.lat || !location.lng` uses JavaScript truthiness and the
number 0 is falsy; the store is unchanged. -/
theorem create_zero_coordinate_rejected (now : Time) (nid : Nat) (req : CreateRequest)
    (store : Store) (path : String) (loc : LocationBody) (la ln : ℚ)
    (hf : req.filePath = some path) (hloc : req.location = some loc)
    (hla : loc.lat = some la) (hln : loc.lng = some ln)
    (hla1 : -90 ≤ la) (hla2 : la ≤ 90) (hln1 : -180 ≤ ln) (hln2 : ln ≤ 180)
    (hzero : la = 0 ∨ ln = 0) :
    postSighting now nid req store = (CreateResult.missingFields, store) := by
  obtain ⟨rf, ra, rb, rl⟩ := req
  obtain ⟨llat, llng⟩ := loc
  simp only at hf hloc hla hln
  subst hf hloc hla hln
  unfold postSighting
  rcases ra with _ | a
  · rfl
  · dsimp only
    rw [if_pos (Or.inr hzero)]

/-- C9 (witness): a deer with image at the equator (latitude exactly 0,
longitude -122) is rejected with `Missing required fields`. -/
theorem create_zero_coordinate_rejected_witness :
    postSighting 0 7 reqZeroLat [] = (CreateResult.missingFields, []) :=
  create_zero_coordinate_rejected 0 7 reqZeroLat [] "img"
    { lat := some 0, lng := some (-122) } 0 (-122) (by decide) (by decide)
    (by decide) (by decide) (by decide) (by decide) (by decide) (by decide)
    (Or.inl rfl)

/-- C10: at any single instant the listing filter
(`lastUpdate >= now - 1h`) and the sweep filter (`lastUpdate < now - 1h`)
are mutually exclusive and jointly exhaustive, and a record whose
`lastUpdate` is exactly one hour old is returned as active and survives
the sweep. -/
theorem active_expired_partition (now : Time) (store : Store) (s : Sighting) :
    (isActive now s = true ↔ isExpired now s = false) ∧
    (s ∈ store → s.lastUpdate = now - hourMs →
      s ∈ listActive now store ∧ s ∈ (deleteExpired now store).1) := by
  constructor
  · simp only [isActive, isExpired, decide_eq_true_eq, decide_eq_false_iff_not, not_lt]
  · intro hmem heq
    constructor
    · unfold listActive
      refine (List.perm_insertionSort newerCreated (store.filter (isActive now))).mem_iff.mpr ?_
      refine List.mem_filter.mpr ⟨hmem, ?_⟩
      simp [isActive, heq]
    · simp only [deleteExpired, cleanupExpiredSightings]
      refine List.mem_filter.mpr ⟨hmem, ?_⟩
      simp [isExpired, heq]

/-- C10 (witness): the boundary record `s0` at clock 3600000 is listed
as active and survives the sweep. -/
theorem active_expired_partition_witness :
    s0 ∈ listActive 3600000 [s0] ∧ s0 ∈ (deleteExpired 3600000 [s0]).1 :=
  (active_expired_partition 3600000 [s0] s0).2 (by decide) (by decide)

end UCSCAnimals
